import Mathlib

/-!
Shallow embedding of the erc20 payment-driver core of this repository
(`src/core/payment-driver/erc20/src/erc20/wallet.rs` and
`src/core/payment-driver/erc20/src/erc20/ethereum.rs`).

Machine integers (`U256`, `u64`, `i32`) are modelled as `Nat`; the gas-price
arithmetic of the source never reaches the 2^256 wrap for the quantities the
claims are about, and all source operations used here (`*`, `/`, `+`, `-`,
comparisons) agree with `Nat` semantics on in-range values.  Decimal-string
database columns holding `U256` values (`current_gas_price`,
`starting_gas_price`, `max_gas_price`) are modelled as `Option Nat`: the
source parses them with `U256::from_dec_str` and propagates a parse failure
as an error, a representation detail orthogonal to the claims.  Asynchronous
RPC results (network gas price, broadcast outcome, receipt lookups) are
passed as explicit parameters.
-/

namespace Erc20

/-- `TransactionStatus` from the payment-driver DB models: the lifecycle
state of a record. -/
inductive TransactionStatus where
  | created
  | sent
  | pendingStatus
  | resendAndBumpGas
  | confirmed
  | failed
  | nonceTooLow
  | errorSent
deriving DecidableEq, Repr

/-- `PolygonPriority` from `ethereum.rs`. -/
inductive PolygonPriority where
  | polygonPrioritySlow
  | polygonPriorityFast
  | polygonPriorityExpress
deriving DecidableEq, Repr

/-- `PolygonGasPriceMethod` from `ethereum.rs`. -/
inductive PolygonGasPriceMethod where
  | polygonGasPriceStatic
  | polygonGasPriceDynamic
deriving DecidableEq, Repr

/-- The environment-derived gas configuration: the results of
`get_polygon_gas_price_method()` and `get_polygon_priority()` in
`ethereum.rs` (both read environment variables once per call; within one
send pass they are fixed, so they are parameters here). -/
structure GasEnv where
  method : PolygonGasPriceMethod
  priority : PolygonPriority
deriving DecidableEq, Repr

/-- Modelled from the spec: `convert_float_gas_to_u256` lives in
`utils.rs`, which is not among the provided sources.  Per the spec it
converts a gas price in gwei (a float that is always an exact multiple of
0.01 gwei in the ladder constants) to wei; we represent the float by its
value in centi-gwei, so the conversion multiplies by 10^7 wei per
centi-gwei. -/
def convert_float_gas_to_u256 (centiGwei : Nat) : Nat :=
  centiGwei * 10000000

/-- `POLYGON_PREFERRED_GAS_PRICES_SLOW = [0.0, 10.01, 15.01, 20.01, 25.01, 30.01]`
(gwei, here in centi-gwei). -/
def POLYGON_PREFERRED_GAS_PRICES_SLOW : List Nat :=
  [0, 1001, 1501, 2001, 2501, 3001]

/-- `POLYGON_PREFERRED_GAS_PRICES_FAST = [0.0, 30.01, 40.01]` (gwei, here in
centi-gwei). -/
def POLYGON_PREFERRED_GAS_PRICES_FAST : List Nat :=
  [0, 3001, 4001]

/-- `POLYGON_PREFERRED_GAS_PRICES_EXPRESS = [0.0, 60.01, 100.01]` (gwei, here
in centi-gwei). -/
def POLYGON_PREFERRED_GAS_PRICES_EXPRESS : List Nat :=
  [0, 6001, 10001]

/-- The priority ladder selected in `bump_gas_price` (`wallet.rs`), already
converted to wei by `convert_float_gas_to_u256` as the source does
element-wise. -/
def gasPriceLadder (priority : PolygonPriority) : List Nat :=
  match priority with
  | .polygonPriorityExpress => POLYGON_PREFERRED_GAS_PRICES_EXPRESS.map convert_float_gas_to_u256
  | .polygonPriorityFast => POLYGON_PREFERRED_GAS_PRICES_FAST.map convert_float_gas_to_u256
  | .polygonPrioritySlow => POLYGON_PREFERRED_GAS_PRICES_SLOW.map convert_float_gas_to_u256

/-- `get_polygon_starting_price` (`ethereum.rs`): element `[1]` of the
priority's ladder, here returned in wei (the single caller modelled in this
file immediately applies `convert_float_gas_to_u256`). -/
def get_polygon_starting_price (priority : PolygonPriority) : Nat :=
  match priority with
  | .polygonPrioritySlow => convert_float_gas_to_u256 1001
  | .polygonPriorityFast => convert_float_gas_to_u256 3001
  | .polygonPriorityExpress => convert_float_gas_to_u256 6001

/-- `bump_gas_price` (`wallet.rs` lines 356-384): multiply by 111/100 in
`U256` integer arithmetic; in dynamic mode return that; in static mode take
the first ladder entry strictly greater than it, falling back to it. -/
def bump_gas_price (env : GasEnv) (gasInGwei : Nat) : Nat :=
  let minGas := gasInGwei * 111 / 100
  match env.method with
  | .polygonGasPriceDynamic => minGas
  | .polygonGasPriceStatic =>
    ((gasPriceLadder env.priority).find? (fun gasPriceStep => decide (minGas < gasPriceStep))).getD minGas

/-- `YagnaRawTransaction` (the builder's output; `transaction.rs`).  The ABI
`data` payload is an opaque byte string. -/
structure YagnaRawTransaction where
  nonce : Nat
  -- the source field is named `to`, a reserved token in Lean
  toAddr : Option Nat
  value : Nat
  gas_price : Nat
  gas : Nat
  data : List Nat
deriving DecidableEq, Repr

/-- The fields of `TransactionEntity` (payment-driver DB models) read by
`send_transactions`.  `encoded` holds the serde-JSON blob; `none` models a
blob that fails to deserialize back to a `YagnaRawTransaction`.  Timestamp,
amount and signature columns are never read by the functions verified here
and are omitted. -/
structure TransactionEntity where
  tx_id : String
  sender : String
  nonce : Nat
  status : TransactionStatus
  current_gas_price : Option Nat
  starting_gas_price : Option Nat
  max_gas_price : Option Nat
  tmp_onchain_txs : Option String
  resent_times : Nat
  encoded : Option YagnaRawTransaction
deriving DecidableEq, Repr

/-- Auxiliary for Rust's `str::contains`: does `pat` occur as a contiguous
sublist of the second argument? -/
def charListHasSub (pat : List Char) : List Char → Bool
  | [] => pat.isEmpty
  | c :: rest => pat.isPrefixOf (c :: rest) || charListHasSub pat rest

/-- Rust's `String::contains(pat)` on the error text, as used by
`send_transactions` to classify RPC errors by substring match. -/
def strHasSub (s pat : String) : Bool :=
  charListHasSub pat.data s.data

/-- The DAO persistence calls emitted by the broadcast-error handling of
`send_transactions` (`wallet.rs` lines 516-548).  Each constructor mirrors
one `Erc20Dao` method and its arguments as passed at the call site. -/
inductive DaoAction where
  | transactionFailedSend (txId : String) (resentTimes : Nat) (msg : String)
  | transactionFailedWithNonceTooLow (txId : String) (msg : String)
  | retrySendTransaction (txId : String) (bumpGas : Bool)
deriving DecidableEq, Repr

/-- The `Err(e)` arm of the broadcast match in `send_transactions`
(`wallet.rs` lines 516-548): classify the RPC error text by substring and
emit the corresponding DAO call. -/
def classifyBroadcastError (tx : TransactionEntity) (e : String) : DaoAction :=
  if strHasSub e "nonce too low" then
    if (Option.filter (fun v => !v.isEmpty) tx.tmp_onchain_txs).isSome && decide (tx.resent_times < 5) then
      DaoAction.transactionFailedSend tx.tx_id (tx.resent_times + 1) e
    else
      DaoAction.transactionFailedWithNonceTooLow tx.tx_id e
  else if strHasSub e "already known" then
    DaoAction.retrySendTransaction tx.tx_id true
  else
    DaoAction.transactionFailedSend tx.tx_id tx.resent_times e

/-- Modelled from the spec: the status written by each DAO transition helper
(the `Erc20Dao` implementation is not among the provided sources).  Per the
spec, `transaction_failed_send` marks the record `ErrorSent`,
`transaction_failed_with_nonce_too_low` marks it terminally `NonceTooLow`,
and `retry_send_transaction` with a bump flag marks it
`ResendAndBumpGas`. -/
def statusAfterDaoAction : DaoAction → TransactionStatus
  | .transactionFailedSend _ _ _ => .errorSent
  | .transactionFailedWithNonceTooLow _ _ => .nonceTooLow
  | .retrySendTransaction _ _ => .resendAndBumpGas

/-- The resent-times value written by `transaction_failed_send` (spec:
`transaction_failed_send(tx_id, resent_times, msg)` stores the given
counter), `none` for actions that do not touch the counter. -/
def resentTimesOfDaoAction : DaoAction → Option Nat
  | .transactionFailedSend _ resentTimes _ => some resentTimes
  | _ => none

/-- The error message preserved on the record by the DAO call, when any. -/
def msgOfDaoAction : DaoAction → Option String
  | .transactionFailedSend _ _ msg => some msg
  | .transactionFailedWithNonceTooLow _ msg => some msg
  | .retrySendTransaction _ _ => none

/-- The gas-price resolution of `send_transactions` (`wallet.rs` lines
417-477): bump when the record is in `ResendAndBumpGas` (the max-gas check
there only logs a warning and never caps), reuse `current_gas_price`
otherwise; on a first send take `max(network_price, starting_gas_price)`
capped by `max_gas_price`; with neither price set fall back to the polygon
starting price.  `networkPrice` is the awaited
`get_network_gas_price(network)` result. -/
def resolveGasPrice (env : GasEnv) (networkPrice : Nat) (tx : TransactionEntity) : Nat :=
  match tx.current_gas_price with
  | some currentGasPrice =>
    if tx.status = TransactionStatus.resendAndBumpGas then
      bump_gas_price env currentGasPrice
    else
      currentGasPrice
  | none =>
    match tx.starting_gas_price with
    | some startingGasPrice =>
      let newGasPrice :=
        if networkPrice > startingGasPrice then networkPrice else startingGasPrice
      match tx.max_gas_price with
      | some maxGasPrice =>
        if maxGasPrice < newGasPrice then maxGasPrice else newGasPrice
      | none => newGasPrice
    | none => get_polygon_starting_price env.priority

/-- What the send-pass loop body of `send_transactions` did to one record:
dropped it because the `encoded` blob failed to deserialize, skipped it at
the monotonicity guard, broadcast it (recording the hash history written by
`transaction_sent`), or hit a broadcast error handled by the given DAO
call. -/
inductive PassEvent where
  | parseFailed (txId : String)
  | skippedMonotonic (txId : String) (gasPrice : Nat)
  | broadcast (txId : String) (onchainTxs : String) (gasPrice : Nat)
  | broadcastError (txId : String) (gasPrice : Nat) (action : DaoAction)
deriving DecidableEq, Repr

/-- One iteration of the `for tx in txs` loop of `send_transactions`
(`wallet.rs` lines 393-549); `currentMaxGasPrice` is the loop-carried
`current_max_gas_price` and `rpcResult` the outcome of
`ethereum::send_tx`.  Returns the updated `current_max_gas_price` and what
happened to this record. -/
def sendPassStep (env : GasEnv) (networkPrice : Nat) (currentMaxGasPrice : Nat)
    (tx : TransactionEntity) (rpcResult : Except String String) : Nat × PassEvent :=
  match tx.encoded with
  | none => (currentMaxGasPrice, PassEvent.parseFailed tx.tx_id)
  | some _ =>
    let newGasPrice := resolveGasPrice env networkPrice tx
    if newGasPrice > currentMaxGasPrice ∧ currentMaxGasPrice ≠ 0 then
      (currentMaxGasPrice, PassEvent.skippedMonotonic tx.tx_id newGasPrice)
    else
      match rpcResult with
      | Except.ok txHash =>
        let strTxHash :=
          match tx.tmp_onchain_txs with
          | some tmpOnchainTxs => tmpOnchainTxs ++ ";" ++ txHash
          | none => txHash
        (newGasPrice, PassEvent.broadcast tx.tx_id strTxHash newGasPrice)
      | Except.error e =>
        (newGasPrice, PassEvent.broadcastError tx.tx_id newGasPrice (classifyBroadcastError tx e))

/-- The loop of `send_transactions` threaded over the batch. -/
def sendPassAux (env : GasEnv) (networkPrice : Nat) :
    Nat → List (TransactionEntity × Except String String) → List PassEvent
  | _, [] => []
  | currentMaxGasPrice, (tx, rpcResult) :: rest =>
    let step := sendPassStep env networkPrice currentMaxGasPrice tx rpcResult
    step.2 :: sendPassAux env networkPrice step.1 rest

/-- `send_transactions` (`wallet.rs` lines 386-552): `current_max_gas_price`
starts at `U256::from(0)`; each record is paired with the broadcast outcome
its `eth_sendRawTransaction` call would return. -/
def send_transactions (env : GasEnv) (networkPrice : Nat)
    (txs : List (TransactionEntity × Except String String)) : List PassEvent :=
  sendPassAux env networkPrice 0 txs

/-- The gas prices of the records that passed the monotonicity guard (and
were therefore signed and broadcast), in pass order. -/
def attemptedPrices (events : List PassEvent) : List Nat :=
  events.filterMap fun ev =>
    match ev with
    | .broadcast _ _ gasPrice => some gasPrice
    | .broadcastError _ gasPrice _ => some gasPrice
    | _ => none

/-- `NextNonceInfo` (`wallet.rs` lines 86-91). -/
structure NextNonceInfo where
  network_nonce_pending : Nat
  network_nonce_latest : Nat
  db_nonce_pending : Option Nat
deriving DecidableEq, Repr

/-- `get_next_nonce_info` (`wallet.rs` lines 93-111): `lastDbNoncePending`
is the awaited `dao.get_last_db_nonce_pending` result (highest nonce of an
unfinished local record, if any), `networkNoncePending`/`networkNonceLatest`
the node's pending/latest transaction counts. -/
def get_next_nonce_info (lastDbNoncePending : Option Nat)
    (networkNoncePending networkNonceLatest : Nat) : NextNonceInfo :=
  { network_nonce_pending := networkNoncePending
    network_nonce_latest := networkNonceLatest
    db_nonce_pending := lastDbNoncePending.map (fun lastPending => lastPending + 1) }

/-- `get_next_nonce` (`wallet.rs` lines 113-131): return the local claim
when one exists (the branch comparing it with the network pending count only
logs a warning), the network pending count otherwise. -/
def get_next_nonce (lastDbNoncePending : Option Nat)
    (networkNoncePending networkNonceLatest : Nat) : Nat :=
  let nonceInfo := get_next_nonce_info lastDbNoncePending networkNoncePending networkNonceLatest
  match nonceInfo.db_nonce_pending with
  | some dbNoncePending => dbNoncePending
  | none => nonceInfo.network_nonce_pending

/-- `GLM_APPROVE_GAS` (`ethereum.rs`). -/
def GLM_APPROVE_GAS : Nat := 200000

/-- The `YagnaRawTransaction` built by `approve_multi_payment_contract`
(`ethereum.rs` lines 159-171) once the allowance check decided to approve:
`approveCallData` is the opaque ABI encoding of
`approve(contract, U256::MAX)`, `nodeGasPrice` the awaited
`eth_gasPrice`, and `nonceInfo` the awaited `get_next_nonce_info` result.
The nonce field is `U256::from(nonce_info.network_nonce_latest)`. -/
def approveRawTransaction (contractAddress : Nat) (approveCallData : List Nat)
    (nodeGasPrice : Nat) (nonceInfo : NextNonceInfo) : YagnaRawTransaction :=
  { nonce := nonceInfo.network_nonce_latest
    toAddr := some contractAddress
    value := 0
    gas_price := nodeGasPrice * 15 / 10
    gas := GLM_APPROVE_GAS
    data := approveCallData }

/-- The fields of a web3 `TransactionReceipt` read by
`get_tx_on_chain_status`. -/
structure TransactionReceiptModel where
  status : Option Nat
  block_number : Option Nat
  gas_used : Option Nat
deriving DecidableEq, Repr

/-- The field of a web3 `Transaction` (an `eth_getTransactionByHash`
result) read by `get_tx_on_chain_status`. -/
structure NetworkTransactionModel where
  gas_price : Nat
deriving DecidableEq, Repr

/-- `TransactionChainStatus` (`ethereum.rs` lines 516-523). -/
structure TransactionChainStatus where
  exists_on_chain : Bool
  pendingTx : Bool
  confirmed : Bool
  succeeded : Bool
  gas_used : Option Nat
  gas_price : Option Nat
deriving DecidableEq, Repr

/-- `get_tx_on_chain_status` (`ethereum.rs` lines 525-573): `receipt` is the
awaited `get_tx_receipt` result and `netTx` the awaited
`get_tx_from_network` result (the source queries it in the receipt branch
only under `block_number.is_some()`, and in the no-receipt branch; at most
one lookup happens on any path).  The source field `pending` is named
`pendingTx` here. -/
def get_tx_on_chain_status (receipt : Option TransactionReceiptModel)
    (netTx : Option NetworkTransactionModel)
    (requiredConfirmations currentBlock : Nat) : TransactionChainStatus :=
  match receipt with
  | some tx =>
    let succeeded := decide (tx.status = some 1)
    match tx.block_number with
    | some txBn =>
      { exists_on_chain := true
        pendingTx := false
        confirmed := decide (txBn + requiredConfirmations - 1 ≤ currentBlock)
        succeeded := succeeded
        gas_used := tx.gas_used
        gas_price := netTx.map (fun t => t.gas_price) }
    | none =>
      { exists_on_chain := true
        pendingTx := false
        confirmed := false
        succeeded := succeeded
        gas_used := tx.gas_used
        gas_price := none }
  | none =>
    match netTx with
    | some _ =>
      { exists_on_chain := true
        pendingTx := true
        confirmed := false
        succeeded := false
        gas_used := none
        gas_price := none }
    | none =>
      { exists_on_chain := false
        pendingTx := false
        confirmed := false
        succeeded := false
        gas_used := none
        gas_price := none }

/-- Big-endian byte string of length `k` representing `n % 256^k`;
`beBytes 32 n` is `U256::to_big_endian` of `n`. -/
def beBytes : Nat → Nat → List Nat
  | 0, _ => []
  | k + 1, n => beBytes k (n / 256) ++ [n % 256]

/-- The packed 32-byte word of `prepare_erc20_multi_transfer`
(`ethereum.rs` lines 425-434): write the 32-byte big-endian of the amount,
then overwrite bytes `0..20` with the receiver address bytes. -/
def packTransferWord (receiver : List Nat) (amount : Nat) : List Nat :=
  receiver.take 20 ++ (beBytes 32 amount).drop 20

/-- Big-endian decoding of a byte string back to a `Nat`. -/
def fromBeBytes (l : List Nat) : Nat :=
  l.foldl (fun acc b => acc * 256 + b) 0

/-- A gas environment in dynamic sidechain mode, for concrete scenarios. -/
def envDynamicSlow : GasEnv :=
  { method := .polygonGasPriceDynamic, priority := .polygonPrioritySlow }

/-- A well-formed encoded raw transaction for concrete scenarios. -/
def demoRawTx : YagnaRawTransaction :=
  { nonce := 4, toAddr := some 1, value := 0, gas_price := 1, gas := 55000, data := [] }

/-- A record in `Sent` status with the given id and persisted
`current_gas_price`, as fed to a send pass by the driver loop. -/
def sendDemoTx (id : String) (currentGasPrice : Nat) : TransactionEntity :=
  { tx_id := id
    sender := "0xaa"
    nonce := 4
    status := .sent
    current_gas_price := some currentGasPrice
    starting_gas_price := some 1
    max_gas_price := none
    tmp_onchain_txs := none
    resent_times := 0
    encoded := some demoRawTx }

/-- Scenario record: nonce-too-low with a prior broadcast hash and
`resent_times = 2`. -/
def rescueDemoTx : TransactionEntity :=
  { tx_id := "t-rescue"
    sender := "0xaa"
    nonce := 5
    status := .sent
    current_gas_price := some 20
    starting_gas_price := some 1
    max_gas_price := none
    tmp_onchain_txs := some "0xh1"
    resent_times := 2
    encoded := some demoRawTx }

/-- Scenario record: no prior broadcast hash. -/
def freshDemoTx : TransactionEntity :=
  { tx_id := "t-fresh"
    sender := "0xaa"
    nonce := 5
    status := .sent
    current_gas_price := some 20
    starting_gas_price := some 1
    max_gas_price := none
    tmp_onchain_txs := none
    resent_times := 0
    encoded := some demoRawTx }

/-- Scenario record: `resent_times = 2`, hit by an RPC error matching
neither classified substring. -/
def otherErrDemoTx : TransactionEntity :=
  { tx_id := "t-other"
    sender := "0xaa"
    nonce := 6
    status := .sent
    current_gas_price := some 20
    starting_gas_price := some 1
    max_gas_price := none
    tmp_onchain_txs := none
    resent_times := 2
    encoded := some demoRawTx }

/-- Scenario record for a first send: `current_gas_price` unset,
`starting_gas_price = 20`, `max_gas_price = 25`. -/
def firstSendDemoTx : TransactionEntity :=
  { tx_id := "t-first"
    sender := "0xaa"
    nonce := 7
    status := .created
    current_gas_price := none
    starting_gas_price := some 20
    max_gas_price := some 25
    tmp_onchain_txs := none
    resent_times := 0
    encoded := some demoRawTx }

/-!  Helper lemmas. -/

/-- `List.find?` on a `≤`-sorted list with the predicate `m < ·` returns the
least element strictly above `m`. -/
theorem find?_lt_sorted_min {l : List Nat} {m x : Nat}
    (hs : List.Sorted (· ≤ ·) l)
    (h : l.find? (fun r => decide (m < r)) = some x) :
    x ∈ l ∧ m < x ∧ ∀ y ∈ l, m < y → x ≤ y := by
  induction l with
  | nil => simp at h
  | cons a t ih =>
    by_cases hma : m < a
    · rw [List.find?_cons_of_pos _ (by simpa using hma)] at h
      obtain rfl : a = x := by simpa using h
      refine ⟨List.mem_cons_self _ _, hma, ?_⟩
      intro y hy _
      rcases List.mem_cons.mp hy with rfl | hyt
      · exact le_refl _
      · exact (List.sorted_cons.mp hs).1 y hyt
    · rw [List.find?_cons_of_neg _ (by simpa using hma)] at h
      obtain ⟨hx, hmx, hmin⟩ := ih (List.sorted_cons.mp hs).2 h
      refine ⟨List.mem_cons_of_mem _ hx, hmx, ?_⟩
      intro y hy hmy
      rcases List.mem_cons.mp hy with rfl | hyt
      · exact absurd hmy hma
      · exact hmin y hyt hmy

/-- `beBytes` has the stated length. -/
theorem beBytes_length (k : Nat) : ∀ n, (beBytes k n).length = k := by
  induction k with
  | zero => intro n; rfl
  | succ k ih => intro n; simp [beBytes, ih]

/-- Splitting a big-endian byte string: the first `j` bytes encode the high
part, the last `k` bytes the low part. -/
theorem beBytes_add (j k : Nat) : ∀ n, beBytes (j + k) n = beBytes j (n / 256 ^ k) ++ beBytes k n := by
  induction k with
  | zero => intro n; simp [beBytes]
  | succ k ih =>
    intro n
    have hidx : j + (k + 1) = (j + k) + 1 := by omega
    rw [hidx]
    show beBytes (j + k) (n / 256) ++ [n % 256] = _
    rw [ih (n / 256), Nat.div_div_eq_div_mul, List.append_assoc]
    have hpow : 256 * 256 ^ k = 256 ^ (k + 1) := by
      rw [pow_succ, Nat.mul_comm]
    rw [hpow]
    rfl

/-- Decoding inverts `beBytes` modulo `256^k`. -/
theorem fromBeBytes_beBytes (k : Nat) : ∀ n, fromBeBytes (beBytes k n) = n % 256 ^ k := by
  induction k with
  | zero => intro n; simp [beBytes, fromBeBytes, Nat.mod_one]
  | succ k ih =>
    intro n
    show fromBeBytes (beBytes k (n / 256) ++ [n % 256]) = n % 256 ^ (k + 1)
    rw [fromBeBytes, List.foldl_append]
    have hinner : List.foldl (fun acc b => acc * 256 + b) 0 (beBytes k (n / 256)) =
        n / 256 % 256 ^ k := ih (n / 256)
    rw [hinner]
    show n / 256 % 256 ^ k * 256 + n % 256 = n % 256 ^ (k + 1)
    have hpow : 256 ^ (k + 1) = 256 * 256 ^ k := by
      rw [pow_succ, Nat.mul_comm]
    rw [hpow, Nat.mod_mul]
    have := n % 256
    omega

/-! Claim theorems. -/

/-- C8: `get_next_nonce` returns `db_nonce_pending` (one past the highest
locally claimed nonce) whenever a local claim exists, otherwise the
network's pending transaction count; when the network's pending count
exceeds the local claim the local claim is still returned (the comparison
only logs a warning). -/
theorem get_next_nonce_spec (lastDbNoncePending : Option Nat)
    (networkNoncePending networkNonceLatest : Nat) :
    (∀ lastNonce, lastDbNoncePending = some lastNonce →
      get_next_nonce lastDbNoncePending networkNoncePending networkNonceLatest = lastNonce + 1) ∧
    (lastDbNoncePending = none →
      get_next_nonce lastDbNoncePending networkNoncePending networkNonceLatest =
        networkNoncePending) ∧
    (∀ lastNonce, lastDbNoncePending = some lastNonce →
      lastNonce + 1 < networkNoncePending →
      get_next_nonce lastDbNoncePending networkNoncePending networkNonceLatest = lastNonce + 1) := by
  refine ⟨?_, ?_, ?_⟩
  · intro lastNonce h
    subst h
    rfl
  · intro h
    subst h
    rfl
  · intro lastNonce h _
    subst h
    rfl

/-- Witness for C8: a local claim of nonce 6 yields 7 even though the
network pending count 9 is larger. -/
theorem get_next_nonce_spec_witness :
    get_next_nonce (some 6) 9 4 = 7 ∧ 7 < 9 :=
  ⟨(get_next_nonce_spec (some 6) 9 4).2.2 6 rfl (by decide), by decide⟩

/-- C10: the Approve transaction built during wallet init takes the
network's latest (confirmed-only) transaction count as its nonce — not the
network pending count and not the local claim — even when those are higher,
so it can reuse a nonce already claimed by a pending local record. -/
theorem approve_nonce_uses_network_latest (contractAddress : Nat)
    (approveCallData : List Nat) (nodeGasPrice : Nat) (nonceInfo : NextNonceInfo) :
    (approveRawTransaction contractAddress approveCallData nodeGasPrice nonceInfo).nonce =
        nonceInfo.network_nonce_latest ∧
    (∀ dbClaim, nonceInfo.db_nonce_pending = some dbClaim →
      nonceInfo.network_nonce_latest < dbClaim →
      (approveRawTransaction contractAddress approveCallData nodeGasPrice nonceInfo).nonce <
        dbClaim) ∧
    (nonceInfo.network_nonce_latest < nonceInfo.network_nonce_pending →
      (approveRawTransaction contractAddress approveCallData nodeGasPrice nonceInfo).nonce <
        nonceInfo.network_nonce_pending) :=
  ⟨rfl, fun _ _ h => h, fun h => h⟩

/-- Witness for C10: with latest = 3, pending = 7 and a local claim of 7,
the Approve nonce is 3, below the claimed nonce 7. -/
theorem approve_nonce_uses_network_latest_witness :
    (approveRawTransaction 1 [] 100 ⟨7, 3, some 7⟩).nonce = 3 ∧
    (approveRawTransaction 1 [] 100 ⟨7, 3, some 7⟩).nonce < 7 :=
  ⟨(approve_nonce_uses_network_latest 1 [] 100 ⟨7, 3, some 7⟩).1,
   (approve_nonce_uses_network_latest 1 [] 100 ⟨7, 3, some 7⟩).2.1 7 rfl (by decide)⟩

/-- C5: on a first send (`current_gas_price` unset, `starting_gas_price`
set) the effective gas price is `max(network gas price, starting_gas_price)`,
capped at `max_gas_price` when the record carries one. -/
theorem first_send_gas_price (env : GasEnv) (networkPrice : Nat)
    (tx : TransactionEntity) (startingGasPrice : Nat)
    (hcur : tx.current_gas_price = none)
    (hstart : tx.starting_gas_price = some startingGasPrice) :
    resolveGasPrice env networkPrice tx =
      match tx.max_gas_price with
      | some maxGasPrice => min (max networkPrice startingGasPrice) maxGasPrice
      | none => max networkPrice startingGasPrice := by
  unfold resolveGasPrice
  rw [hcur, hstart]
  cases hmax : tx.max_gas_price with
  | none => simp only []; split <;> omega
  | some maxGasPrice => simp only []; split <;> split <;> omega

/-- Witness for C5: network price 30, starting 20, max 25: the price is
`min (max 30 20) 25 = 25`. -/
theorem first_send_gas_price_witness :
    resolveGasPrice envDynamicSlow 30 firstSendDemoTx = min (max 30 20) 25 :=
  first_send_gas_price envDynamicSlow 30 firstSendDemoTx 20 rfl rfl

/-- Counterexample to C2 as stated: in dynamic mode a previous price of 10
bumps to `10 * 111 / 100 = 11`, strictly below `⌈10 × 1.11⌉ = 12`. -/
theorem bump_below_ceiling_at_ten :
    bump_gas_price ⟨.polygonGasPriceDynamic, .polygonPrioritySlow⟩ 10 = 11 ∧
    (10 * 111 + 99) / 100 = 12 ∧
    ¬ ((10 * 111 + 99) / 100 ≤
        bump_gas_price ⟨.polygonGasPriceDynamic, .polygonPrioritySlow⟩ 10) := by
  decide

/-- C2 amended: for every previous gas price `p`, the bumped price is at
least `⌊p × 111 / 100⌋` (the floor, not the ceiling, of `p × 1.11`), in
both the dynamic and the static sidechain gas-price modes. -/
theorem bump_at_least_floor_eleven_percent (env : GasEnv) (previousGasPrice : Nat) :
    previousGasPrice * 111 / 100 ≤ bump_gas_price env previousGasPrice := by
  unfold bump_gas_price
  cases hm : env.method with
  | polygonGasPriceDynamic => exact le_refl _
  | polygonGasPriceStatic =>
    show previousGasPrice * 111 / 100 ≤
      ((gasPriceLadder env.priority).find?
        (fun gasPriceStep => decide (previousGasPrice * 111 / 100 < gasPriceStep))).getD
        (previousGasPrice * 111 / 100)
    cases hf : (gasPriceLadder env.priority).find?
        (fun gasPriceStep => decide (previousGasPrice * 111 / 100 < gasPriceStep)) with
    | none => simp
    | some x =>
      have hx := List.find?_some hf
      simp only [decide_eq_true_eq] at hx
      simp only [Option.getD_some]
      omega

/-- Witness for C2 amended: at `p = 10` in dynamic mode the bound
`10 * 111 / 100 ≤ 11` holds with equality. -/
theorem bump_at_least_floor_eleven_percent_witness :
    10 * 111 / 100 ≤ bump_gas_price ⟨.polygonGasPriceDynamic, .polygonPrioritySlow⟩ 10 :=
  bump_at_least_floor_eleven_percent ⟨.polygonGasPriceDynamic, .polygonPrioritySlow⟩ 10

/-- Counterexample to C4 as stated: an RPC error matching neither
classified substring leaves `resent_times` at its previous value 2 instead
of incrementing it to 3. -/
theorem other_error_resent_times_unchanged :
    classifyBroadcastError otherErrDemoTx "insufficient funds" =
      DaoAction.transactionFailedSend "t-other" 2 "insufficient funds" ∧
    resentTimesOfDaoAction (classifyBroadcastError otherErrDemoTx "insufficient funds") ≠
      some (otherErrDemoTx.resent_times + 1) := by
  decide

/-- C4 amended: on an RPC error whose text matches neither "nonce too low"
nor "already known", the record is marked `ErrorSent` via
`transaction_failed_send` with its `resent_times` counter passed unchanged
(not incremented), and the error message is preserved. -/
theorem other_error_failed_send (tx : TransactionEntity) (e : String)
    (hnonce : strHasSub e "nonce too low" = false)
    (hknown : strHasSub e "already known" = false) :
    classifyBroadcastError tx e =
      DaoAction.transactionFailedSend tx.tx_id tx.resent_times e ∧
    statusAfterDaoAction (classifyBroadcastError tx e) = TransactionStatus.errorSent ∧
    msgOfDaoAction (classifyBroadcastError tx e) = some e := by
  unfold classifyBroadcastError
  rw [hnonce, hknown]
  exact ⟨rfl, rfl, rfl⟩

/-- Witness for C4 amended: the concrete record with `resent_times = 2` hit
by "insufficient funds". -/
theorem other_error_failed_send_witness :
    classifyBroadcastError otherErrDemoTx "insufficient funds" =
      DaoAction.transactionFailedSend "t-other" 2 "insufficient funds" ∧
    statusAfterDaoAction (classifyBroadcastError otherErrDemoTx "insufficient funds") =
      TransactionStatus.errorSent :=
  ⟨(other_error_failed_send otherErrDemoTx "insufficient funds" (by decide) (by decide)).1,
   (other_error_failed_send otherErrDemoTx "insufficient funds" (by decide) (by decide)).2.1⟩

/-- C3: on a "nonce too low" RPC error, a record whose `tmp_onchain_txs`
history is non-empty and whose `resent_times < 5` is demoted to `ErrorSent`
via `transaction_failed_send` with `resent_times` incremented by one;
otherwise it is marked terminally `NonceTooLow`. -/
theorem nonce_too_low_handling (tx : TransactionEntity) (e : String)
    (hfound : strHasSub e "nonce too low" = true) :
    ((Option.filter (fun v => !v.isEmpty) tx.tmp_onchain_txs).isSome = true ∧
        tx.resent_times < 5 →
      classifyBroadcastError tx e =
          DaoAction.transactionFailedSend tx.tx_id (tx.resent_times + 1) e ∧
        statusAfterDaoAction (classifyBroadcastError tx e) = TransactionStatus.errorSent) ∧
    (¬ ((Option.filter (fun v => !v.isEmpty) tx.tmp_onchain_txs).isSome = true ∧
        tx.resent_times < 5) →
      classifyBroadcastError tx e =
          DaoAction.transactionFailedWithNonceTooLow tx.tx_id e ∧
        statusAfterDaoAction (classifyBroadcastError tx e) = TransactionStatus.nonceTooLow) := by
  constructor
  · rintro ⟨h1, h2⟩
    have hcond : ((Option.filter (fun v => !v.isEmpty) tx.tmp_onchain_txs).isSome &&
        decide (tx.resent_times < 5)) = true := by
      rw [Bool.and_eq_true]
      exact ⟨h1, by simpa using h2⟩
    have hcls : classifyBroadcastError tx e =
        DaoAction.transactionFailedSend tx.tx_id (tx.resent_times + 1) e := by
      unfold classifyBroadcastError
      rw [hfound, hcond]
      rfl
    exact ⟨hcls, by rw [hcls]; rfl⟩
  · intro hneg
    have hcond : ((Option.filter (fun v => !v.isEmpty) tx.tmp_onchain_txs).isSome &&
        decide (tx.resent_times < 5)) = false := by
      rcases Bool.eq_false_or_eq_true ((Option.filter (fun v => !v.isEmpty)
          tx.tmp_onchain_txs).isSome && decide (tx.resent_times < 5)) with htrue | hfalse
      · rw [Bool.and_eq_true] at htrue
        exact absurd ⟨htrue.1, by simpa using htrue.2⟩ hneg
      · exact hfalse
    have hcls : classifyBroadcastError tx e =
        DaoAction.transactionFailedWithNonceTooLow tx.tx_id e := by
      unfold classifyBroadcastError
      rw [hfound, hcond]
      rfl
    exact ⟨hcls, by rw [hcls]; rfl⟩

/-- Witness for C3: both branches at concrete records — with a prior hash
and `resent_times = 2` the record goes to failed-send with counter 3; with
no prior hash it goes to terminal nonce-too-low. -/
theorem nonce_too_low_handling_witness :
    classifyBroadcastError rescueDemoTx "nonce too low" =
      DaoAction.transactionFailedSend "t-rescue" 3 "nonce too low" ∧
    classifyBroadcastError freshDemoTx "nonce too low" =
      DaoAction.transactionFailedWithNonceTooLow "t-fresh" "nonce too low" :=
  ⟨((nonce_too_low_handling rescueDemoTx "nonce too low" (by decide)).1
      ⟨by decide, by decide⟩).1,
   ((nonce_too_low_handling freshDemoTx "nonce too low" (by decide)).2
      (by decide)).1⟩

/-- C7: `get_tx_on_chain_status` reports `confirmed` exactly when a receipt
exists whose block number `b` satisfies
`b + required_confirmations - 1 ≤ current_block`; `succeeded` exactly when
the receipt's status field is 1; and with no receipt but a transaction still
known to the node it reports `exists_on_chain` and `pending`. -/
theorem tx_chain_status_spec (receipt : Option TransactionReceiptModel)
    (netTx : Option NetworkTransactionModel) (requiredConfirmations currentBlock : Nat) :
    ((get_tx_on_chain_status receipt netTx requiredConfirmations currentBlock).confirmed = true ↔
      ∃ r, receipt = some r ∧ ∃ blockNum, r.block_number = some blockNum ∧
        blockNum + requiredConfirmations - 1 ≤ currentBlock) ∧
    ((get_tx_on_chain_status receipt netTx requiredConfirmations currentBlock).succeeded = true ↔
      ∃ r, receipt = some r ∧ r.status = some 1) ∧
    (receipt = none → netTx.isSome = true →
      (get_tx_on_chain_status receipt netTx requiredConfirmations currentBlock).exists_on_chain
          = true ∧
      (get_tx_on_chain_status receipt netTx requiredConfirmations currentBlock).pendingTx
          = true) := by
  cases receipt with
  | none => cases netTx <;> simp [get_tx_on_chain_status]
  | some r => cases hb : r.block_number <;> simp [get_tx_on_chain_status, hb]

/-- Witness for C7: a receipt at block 100 with status 1, required
confirmations 3, current block 102 is confirmed and succeeded; a pending
transaction with no receipt is reported on-chain and pending. -/
theorem tx_chain_status_spec_witness :
    (get_tx_on_chain_status (some ⟨some 1, some 100, some 21000⟩) (some ⟨55⟩) 3 102).confirmed
        = true ∧
    (get_tx_on_chain_status (some ⟨some 1, some 100, some 21000⟩) (some ⟨55⟩) 3 102).succeeded
        = true ∧
    (get_tx_on_chain_status none (some ⟨55⟩) 3 102).exists_on_chain = true ∧
    (get_tx_on_chain_status none (some ⟨55⟩) 3 102).pendingTx = true := by
  refine ⟨?_, ?_, ?_, ?_⟩
  · exact (tx_chain_status_spec (some ⟨some 1, some 100, some 21000⟩) (some ⟨55⟩) 3 102).1.mpr
      ⟨_, rfl, 100, rfl, by decide⟩
  · exact (tx_chain_status_spec (some ⟨some 1, some 100, some 21000⟩) (some ⟨55⟩) 3 102).2.1.mpr
      ⟨_, rfl, rfl⟩
  · exact ((tx_chain_status_spec none (some ⟨55⟩) 3 102).2.2 rfl (by decide)).1
  · exact ((tx_chain_status_spec none (some ⟨55⟩) 3 102).2.2 rfl (by decide)).2

/-- C6: in static sidechain mode the bumped price is the smallest rung of
the configured priority ladder strictly greater than the 11%-bumped value
`⌊p × 111 / 100⌋`, falling back to that value when no rung is above it; in
particular 30.01 gwei with priority fast bumps to 40.01 gwei. -/
theorem static_bump_next_ladder_rung (priority : PolygonPriority) (p : Nat) :
    ((bump_gas_price ⟨.polygonGasPriceStatic, priority⟩ p ∈ gasPriceLadder priority ∧
      p * 111 / 100 < bump_gas_price ⟨.polygonGasPriceStatic, priority⟩ p ∧
      ∀ rung ∈ gasPriceLadder priority, p * 111 / 100 < rung →
        bump_gas_price ⟨.polygonGasPriceStatic, priority⟩ p ≤ rung) ∨
     ((∀ rung ∈ gasPriceLadder priority, rung ≤ p * 111 / 100) ∧
      bump_gas_price ⟨.polygonGasPriceStatic, priority⟩ p = p * 111 / 100)) ∧
    bump_gas_price ⟨.polygonGasPriceStatic, .polygonPriorityFast⟩ 30010000000 = 40010000000 := by
  constructor
  · have hsorted : List.Sorted (· ≤ ·) (gasPriceLadder priority) := by
      cases priority <;> decide
    have hbump : bump_gas_price ⟨.polygonGasPriceStatic, priority⟩ p =
        ((gasPriceLadder priority).find?
          (fun gasPriceStep => decide (p * 111 / 100 < gasPriceStep))).getD (p * 111 / 100) :=
      rfl
    cases hf : (gasPriceLadder priority).find?
        (fun gasPriceStep => decide (p * 111 / 100 < gasPriceStep)) with
    | some x =>
      left
      obtain ⟨hx, hmx, hmin⟩ := find?_lt_sorted_min hsorted hf
      rw [hbump, hf]
      exact ⟨hx, hmx, hmin⟩
    | none =>
      right
      have hall := List.find?_eq_none.mp hf
      constructor
      · intro rung hrung
        have := hall rung hrung
        simp only [decide_eq_true_eq] at this
        omega
      · rw [hbump, hf]
        rfl
  · decide

/-- Witness for C6: the concrete scenario from the spec, extracted from the
theorem. -/
theorem static_bump_next_ladder_rung_witness :
    bump_gas_price ⟨.polygonGasPriceStatic, .polygonPriorityFast⟩ 30010000000 = 40010000000 :=
  (static_bump_next_ladder_rung .polygonPriorityFast 0).2

/-- C9: for any `(recipient, amount)` with the 20-byte recipient and
`amount < 2^96`, the packed multi-transfer word has bytes `0..20` equal to
the recipient and bytes `20..32` equal to the big-endian amount, so both
decode back to the original pair. -/
theorem packed_word_round_trip (receiver : List Nat) (amount : Nat)
    (hlen : receiver.length = 20) (hamount : amount < 2 ^ 96) :
    (packTransferWord receiver amount).take 20 = receiver ∧
    (packTransferWord receiver amount).drop 20 = beBytes 12 amount ∧
    fromBeBytes ((packTransferWord receiver amount).drop 20) = amount := by
  have htake20 : receiver.take 20 = receiver := by
    rw [← hlen, List.take_length]
  have hlen20 : (receiver.take 20).length = 20 := by
    rw [htake20, hlen]
  have hsplit : (beBytes 32 amount).drop 20 = beBytes 12 amount := by
    have h32 : beBytes 32 amount =
        beBytes 20 (amount / 256 ^ 12) ++ beBytes 12 amount := beBytes_add 20 12 amount
    rw [h32, List.drop_left' (beBytes_length 20 (amount / 256 ^ 12))]
  refine ⟨?_, ?_, ?_⟩
  · rw [packTransferWord, List.take_left' hlen20, htake20]
  · rw [packTransferWord, List.drop_left' hlen20, hsplit]
  · rw [packTransferWord, List.drop_left' hlen20, hsplit, fromBeBytes_beBytes]
    have h296 : (256 : Nat) ^ 12 = 2 ^ 96 := by norm_num
    rw [h296]
    exact Nat.mod_eq_of_lt hamount

/-- Witness for C9: a concrete 20-byte address and amount 123456789. -/
theorem packed_word_round_trip_witness :
    (List.range 20).length = 20 ∧ 123456789 < 2 ^ 96 ∧
    ((packTransferWord (List.range 20) 123456789).take 20 = List.range 20 ∧
      fromBeBytes ((packTransferWord (List.range 20) 123456789).drop 20) = 123456789) :=
  ⟨by decide, by decide,
   (packed_word_round_trip (List.range 20) 123456789 (by decide) (by decide)).1,
   (packed_word_round_trip (List.range 20) 123456789 (by decide) (by decide)).2.2⟩

/-- Loop invariant of the batch guard in `send_transactions`: starting from
tracker value `cur`, the prices of the records that pass the guard (are
signed and broadcast), prefixed by `cur`, form a chain in which each price
is at most its predecessor unless the predecessor is zero. -/
theorem sendPassAux_attempted_chain (env : GasEnv) (networkPrice : Nat) :
    ∀ (txs : List (TransactionEntity × Except String String)) (cur : Nat),
      List.Chain' (fun p q => q ≤ p ∨ p = 0)
        (cur :: attemptedPrices (sendPassAux env networkPrice cur txs)) := by
  intro txs
  induction txs with
  | nil =>
    intro cur
    simp [sendPassAux, attemptedPrices]
  | cons head rest ih =>
    intro cur
    obtain ⟨tx, rpcResult⟩ := head
    have hdef : sendPassAux env networkPrice cur ((tx, rpcResult) :: rest) =
        (sendPassStep env networkPrice cur tx rpcResult).2 ::
          sendPassAux env networkPrice (sendPassStep env networkPrice cur tx rpcResult).1 rest :=
      rfl
    cases henc : tx.encoded with
    | none =>
      have hstep : sendPassStep env networkPrice cur tx rpcResult =
          (cur, PassEvent.parseFailed tx.tx_id) := by
        simp [sendPassStep, henc]
      rw [hdef, hstep]
      simpa [attemptedPrices] using ih cur
    | some raw =>
      by_cases hguard : resolveGasPrice env networkPrice tx > cur ∧ cur ≠ 0
      · have hstep : sendPassStep env networkPrice cur tx rpcResult =
            (cur, PassEvent.skippedMonotonic tx.tx_id (resolveGasPrice env networkPrice tx)) := by
          simp [sendPassStep, henc, hguard]
        rw [hdef, hstep]
        simpa [attemptedPrices] using ih cur
      · have hrel : resolveGasPrice env networkPrice tx ≤ cur ∨ cur = 0 := by
          by_cases hz : cur = 0
          · exact Or.inr hz
          · left
            rcases Decidable.not_and_iff_or_not.mp hguard with hle | hzz
            · omega
            · exact absurd hz (by simpa using fun h => hzz h)
        cases rpcResult with
        | ok txHash =>
          have hstep : sendPassStep env networkPrice cur tx (Except.ok txHash) =
              (resolveGasPrice env networkPrice tx,
                PassEvent.broadcast tx.tx_id
                  (match tx.tmp_onchain_txs with
                   | some tmpOnchainTxs => tmpOnchainTxs ++ ";" ++ txHash
                   | none => txHash)
                  (resolveGasPrice env networkPrice tx)) := by
            simp [sendPassStep, henc, hguard]
          rw [hdef, hstep]
          simp only [attemptedPrices, List.filterMap_cons]
          rw [List.chain'_cons]
          exact ⟨hrel, by
            simpa [attemptedPrices] using ih (resolveGasPrice env networkPrice tx)⟩
        | error e =>
          have hstep : sendPassStep env networkPrice cur tx (Except.error e) =
              (resolveGasPrice env networkPrice tx,
                PassEvent.broadcastError tx.tx_id (resolveGasPrice env networkPrice tx)
                  (classifyBroadcastError tx e)) := by
            simp [sendPassStep, henc, hguard]
          rw [hdef, hstep]
          simp only [attemptedPrices, List.filterMap_cons]
          rw [List.chain'_cons]
          exact ⟨hrel, by
            simpa [attemptedPrices] using ih (resolveGasPrice env networkPrice tx)⟩

/-- C1 amended: within a single send pass the engine never broadcasts a
transaction at a gas price *higher* than the previously broadcast one
unless that previous price was zero (the tracker starts at zero and is set
to each attempted record's price); a record is skipped — not signed, not
broadcast — exactly when its resolved gas price is strictly above the
nonzero tracker, i.e. strictly above the price of the last record sent. -/
theorem send_pass_gas_guard :
    (∀ (env : GasEnv) (networkPrice : Nat)
        (txs : List (TransactionEntity × Except String String)),
      List.Chain' (fun p q => q ≤ p ∨ p = 0)
        (0 :: attemptedPrices (send_transactions env networkPrice txs))) ∧
    (∀ (env : GasEnv) (networkPrice currentMaxGasPrice : Nat)
        (tx : TransactionEntity) (rpcResult : Except String String),
      (sendPassStep env networkPrice currentMaxGasPrice tx rpcResult).2 =
          PassEvent.skippedMonotonic tx.tx_id (resolveGasPrice env networkPrice tx) ↔
        tx.encoded.isSome = true ∧
          resolveGasPrice env networkPrice tx > currentMaxGasPrice ∧
          currentMaxGasPrice ≠ 0) := by
  constructor
  · intro env networkPrice txs
    exact sendPassAux_attempted_chain env networkPrice txs 0
  · intro env networkPrice currentMaxGasPrice tx rpcResult
    cases henc : tx.encoded with
    | none => simp [sendPassStep, henc]
    | some raw =>
      by_cases hguard : resolveGasPrice env networkPrice tx > currentMaxGasPrice ∧
          currentMaxGasPrice ≠ 0
      · simp [sendPassStep, henc, hguard]
      · cases rpcResult with
        | ok txHash => simp [sendPassStep, henc, hguard]
        | error e => simp [sendPassStep, henc, hguard]

/-- Counterexample to C1 as stated: a pass over records resolving to prices
(25, 22, 30) broadcasts 25, then broadcasts 22 — a *lower* price than an
earlier broadcast of the same pass, which the claim says never happens and
says should be skipped — and skips the record at 30, which is at or above
the running maximum of sent prices and which the claim says is sent. -/
theorem send_pass_guard_counterexample :
    send_transactions envDynamicSlow 0
        [(sendDemoTx "t4" 25, Except.ok "h1"), (sendDemoTx "t5" 22, Except.ok "h2"),
         (sendDemoTx "t6" 30, Except.ok "h3")] =
      [PassEvent.broadcast "t4" "h1" 25, PassEvent.broadcast "t5" "h2" 22,
       PassEvent.skippedMonotonic "t6" 30] ∧
    22 < 25 ∧ 25 ≤ 30 := by
  decide

/-- Witness for C1 amended: the chain invariant on the concrete
three-record pass. -/
theorem send_pass_gas_guard_witness :
    List.Chain' (fun p q => q ≤ p ∨ p = 0)
      (0 :: attemptedPrices (send_transactions envDynamicSlow 0
        [(sendDemoTx "t4" 25, Except.ok "h1"), (sendDemoTx "t5" 22, Except.ok "h2"),
         (sendDemoTx "t6" 30, Except.ok "h3")])) :=
  send_pass_gas_guard.1 envDynamicSlow 0
    [(sendDemoTx "t4" 25, Except.ok "h1"), (sendDemoTx "t5" 22, Except.ok "h2"),
     (sendDemoTx "t6" 30, Except.ok "h3")]

end Erc20
